import Mathlib

/-!
Shallow embedding of the GPU priority-request service (src/app.py, src/utils.py,
src/models.py) and proofs about its request lifecycle, command generator,
validators and archival policy.

Modelling conventions:
* Python strings are Lean `String`s (ASCII semantics); `str.strip` is `pyStrip`,
  `str.split` is `pySplit`, Python truthiness of an optional string column is
  `pyTruthy` (`None` and `""` are falsy).
* `datetime` values are seconds since the epoch (`Nat`).  `timedelta(days=n)`
  is `n * daySecs`.  `strftime` is modelled by injective renderings at the
  resolution the format string keeps: `fmtSeconds` for `%Y-%m-%d %H:%M:%S`
  (second resolution) and `fmtMinutes` for `%Y%m%d%H%M` and `%Y-%m-%d %H:%M`
  (minute resolution, truncating the seconds).  The calendar digits themselves
  play no role in any claim; only which instant is rendered, and at which
  resolution, does.
* Database rows are plain records; nullable columns are `Option`.  The
  ORM-managed `updated_at` bookkeeping column (onupdate=utcnow) is not part of
  the model since no code path reads it.
* A web handler that validates, then either mutates the row and commits or
  redirects without touching it, becomes a total function returning
  `Option Priority` (`none` = rejected, no mutation).
-/

/-- Python `str.strip()`: drop leading and trailing whitespace. -/
def pyStrip (s : String) : String :=
  String.mk (((s.data.dropWhile Char.isWhitespace).reverse.dropWhile Char.isWhitespace).reverse)

/-- Helper for `pySplit`: split a character list at every occurrence of `c`. -/
def pySplitAux (c : Char) : List Char → List Char → List (List Char)
  | [], cur => [cur.reverse]
  | d :: rest, cur =>
      if d = c then cur.reverse :: pySplitAux c rest []
      else pySplitAux c rest (d :: cur)

/-- Python `str.split(c)` for a one-character separator. -/
def pySplit (c : Char) (s : String) : List String :=
  (pySplitAux c s.data []).map String.mk

/-- Python truthiness of a nullable string column: `None` and `""` are falsy. -/
def pyTruthy : Option String → Bool
  | none => false
  | some s => s != ""

/-- The single-quote character, used inside generated command text. -/
def singleQuote : String := String.singleton (Char.ofNat 39)

/-- Seconds in one day: `timedelta(days=n)` is `n * daySecs`. -/
def daySecs : Nat := 86400

/-- Models `strftime('%Y-%m-%d %H:%M:%S')`: injective rendering of the instant
at second resolution (our time unit). -/
def fmtSeconds (t : Nat) : String := toString t

/-- Models `strftime('%Y%m%d%H%M')` and `strftime('%Y-%m-%d %H:%M')`: rendering
of the instant truncated to minute resolution. -/
def fmtMinutes (t : Nat) : String := toString (t / 60)

/-- `validate_bugzilla_ticket` (utils.py:171-185): strip, then require digits
only and a length between 1 and 50. -/
def validateBugzillaTicket (ticket : String) : Bool :=
  let t := pyStrip ticket
  if t == "" then false
  else t.data.all Char.isDigit && decide (t.length ≤ 50) && decide (1 ≤ t.length)

/-- One line of a username block must match `^[a-zA-Z][a-zA-Z0-9.\-]*$`
(utils.py:202-205). -/
def usernameLineOk (u : String) : Bool :=
  match u.data with
  | [] => false
  | c :: cs => c.isAlpha && cs.all (fun d => d.isAlphanum || d == '.' || d == '-')

/-- `validate_username` (utils.py:187-214): strip, split on newlines, drop
blank lines; every entry matches the username pattern with length 2-50, and at
most 10 entries. -/
def validateUsername (s : String) : Bool :=
  let t := pyStrip s
  if t == "" then false
  else
    let us := ((pySplit '\n' t).map pyStrip).filter (fun u => u != "")
    if us.isEmpty then false
    else
      us.all (fun u => usernameLineOk u && decide (2 ≤ u.length) && decide (u.length ≤ 50)) &&
        decide (us.length ≤ 10)

/-- First character of a string equals `c`. -/
def firstCharIs (s : String) (c : Char) : Bool :=
  match s.data with
  | [] => false
  | d :: _ => d == c

/-- Last character of a string equals `c`. -/
def lastCharIs (s : String) (c : Char) : Bool :=
  s.data.getLast? == some c

/-- `validate_priority_name` (utils.py:216-235): strip, then
`^[a-zA-Z0-9_-]+$`, length 2-50, and no leading or trailing dash. -/
def validatePriorityName (s : String) : Bool :=
  let t := pyStrip s
  if t == "" then false
  else
    t.data.all (fun c => c.isAlphanum || c == '_' || c == '-') &&
      decide (2 ≤ t.length) && decide (t.length ≤ 50) &&
      !(firstCharIs t '-') && !(lastCharIs t '-')

/-- The `users` row fields the core reads (models.py `User`). -/
structure UserRec where
  username : String
  email : String
deriving Repr, DecidableEq

/-- The `priorities` row (models.py `Priority`), with the joined `user`
relationship inlined.  `status` is one of "pending" / "accepted" / "refused";
nullable columns are `Option`. -/
structure Priority where
  user_id : Nat
  user : UserRec
  bugzilla_ticket : String
  additional_usernames : Option String
  slurm_project : String
  gpu_type : String
  gpu_count : Int
  duration_days : Nat
  reason : String
  status : String
  admin_message : Option String
  priority_name : Option String
  status_updated_at : Option Nat
  status_updated_by : Option String
  slurm_command : Option String
  created_at : Nat
deriving Repr, DecidableEq

/-- `Priority.additional_usernames_list` (models.py:77-82): split the stored
text on newlines, strip each entry, drop blanks. -/
def additionalUsernamesList (p : Priority) : List String :=
  match p.additional_usernames with
  | none => []
  | some s =>
      if s == "" then []
      else ((pySplit '\n' s).map pyStrip).filter (fun u => u != "")

/-- The per-user QOS assignment command emitted by the generator
(utils.py:137-143). -/
def assignCmd (qos project u : String) : String :=
  "sacctmgr modify user " ++ u ++ " set qos+=" ++ qos ++ " where account=" ++ project

/-- `generate_slurm_command` (utils.py:97-169), as the list of emitted lines.
Returns `none` when the priority name is missing or empty (Python falsy).
`now` is the `datetime.utcnow()` read for the "Generated on" header. -/
def slurmCommandLines (p : Priority) (now : Nat) : Option (List String) :=
  match p.priority_name with
  | none => none
  | some base =>
    if base == "" then none
    else
      let qos := "prio-" ++ base ++ "-" ++ toString p.duration_days ++ "d"
      let allUsers := p.user.username :: additionalUsernamesList p
      some (
        ("# GPU Priority Commands for Ticket: " ++ p.bugzilla_ticket) ::
        ("# Generated on: " ++ fmtSeconds now) ::
        ("# Base Priority Name: " ++ base) ::
        ("# QOS Name: " ++ qos) ::
        ("# Users: " ++ String.intercalate ", " allUsers) ::
        "" ::
        "# Create QOS with resource limits" ::
        ("sacctmgr add qos " ++ qos ++ " GrpTRES=gres/gpu:" ++ p.gpu_type ++ "=" ++
          toString p.gpu_count ++ " MaxWall=" ++ toString p.duration_days ++ "-0 Priority=1000") ::
        "" ::
        "# Assign QOS to users" ::
        (allUsers.map (assignCmd qos p.slurm_project)
          ++ ((match p.status_updated_at with
              | some t =>
                  ["", "# Schedule QOS cleanup",
                   "echo " ++ singleQuote ++ "sacctmgr -i delete qos " ++ qos ++ singleQuote ++
                     " | at -t " ++ fmtMinutes (t + p.duration_days * daySecs)]
              | none => [])
          ++ ["", "# Verification commands",
              "sacctmgr show qos " ++ qos,
              "squeue -u " ++ String.intercalate "," allUsers])))

/-- `generate_slurm_command` joined to its final text with newlines
(utils.py:163). -/
def generateSlurmCommand (p : Priority) (now : Nat) : Option String :=
  (slurmCommandLines p now).map (String.intercalate "\n")

/-- The fields read from the submission form (app.py:180-190).  String fields
carry the raw form values; the handler strips most of them when building its
`data` dict (`gpu_type` is taken unstripped, as in the source). -/
structure FormData where
  bugzilla_ticket : String
  username : String
  additional_usernames : String
  slurm_project : String
  gpu_type : String
  gpu_count : Int
  duration_days : Int
  reason : String
deriving Repr, DecidableEq

/-- The validation pass of `submit_priority` (app.py:192-218): every violated
rule appends its message, in source order. -/
def submitErrors (d : FormData) : List String :=
  let bt := pyStrip d.bugzilla_ticket
  let un := pyStrip d.username
  let au := pyStrip d.additional_usernames
  let sp := pyStrip d.slurm_project
  let gt := d.gpu_type
  let rs := pyStrip d.reason
  (if !validateBugzillaTicket bt then ["Invalid Bugzilla ticket format"] else []) ++
  (if un == "" then ["Username is required"] else []) ++
  (if au != "" && !validateUsername au then ["Invalid additional usernames format"] else []) ++
  (if sp == "" || !validateUsername sp then ["Valid SLURM project is required"] else []) ++
  (if gt == "" || !(["rtx3090", "v100", "h100"].contains gt) then
      ["Valid GPU type is required"] else []) ++
  (if d.gpu_count == 0 || decide (d.gpu_count < 1) then
      ["GPU count must be at least 1"] else []) ++
  (if d.duration_days == 0 || decide (d.duration_days < 1) || decide (d.duration_days > 14) then
      ["Duration must be between 1 and 14 days (maximum 2 weeks)"] else []) ++
  (if rs == "" then ["Reason is required"] else [])

/-- The submit pipeline: `submit_priority` validation (app.py:192-225) followed
by the row creation of `confirm_priority` (app.py:253-262); on any validation
error no request is created.  `duration_days` is stored as a `Nat` — the
validation that guards the `ok` branch forces it into `[1,14]`. -/
def confirmPriority (d : FormData) (u : UserRec) (uid : Nat) (createdAt : Nat) :
    Except (List String) Priority :=
  if submitErrors d = [] then
    .ok
      { user_id := uid
        user := u
        bugzilla_ticket := pyStrip d.bugzilla_ticket
        additional_usernames :=
          if pyStrip d.additional_usernames == "" then none
          else some (pyStrip d.additional_usernames)
        slurm_project := pyStrip d.slurm_project
        gpu_type := d.gpu_type
        gpu_count := d.gpu_count
        duration_days := d.duration_days.toNat
        reason := pyStrip d.reason
        status := "pending"
        admin_message := none
        priority_name := none
        status_updated_at := none
        status_updated_by := none
        slurm_command := none
        created_at := createdAt }
  else .error (submitErrors d)

/-- Appending one timestamped, attributed entry to the admin message log
(app.py:421-430 and app.py:521-529): `[<minute timestamp>] <actor>: <text>`,
separated from an existing non-empty log by a blank line. -/
def appendEntry (existing : Option String) (actor : String) (zurichNow : Nat)
    (text : String) : String :=
  let entry := "[" ++ fmtMinutes zurichNow ++ "] " ++ actor ++ ": " ++ text
  match existing with
  | some m => if m == "" then entry else m ++ "\n\n" ++ entry
  | none => entry

/-- The mutation sequence of `update_priority_status` (app.py:417-452), applied
after its guards passed.  `adminMessage` and `pn` are already stripped.
`utcNow` is the `datetime.utcnow()` read; `zurichNow` the Zurich-clock read for
message timestamps. -/
def updateStatusCore (p : Priority) (newStatus adminMessage pn actor : String)
    (utcNow zurichNow : Nat) : Priority :=
  let p1 := { p with status := newStatus
                     status_updated_at := some utcNow
                     status_updated_by := some actor }
  let p2 :=
    if adminMessage != "" then
      { p1 with admin_message := some (appendEntry p1.admin_message actor zurichNow adminMessage) }
    else p1
  if newStatus = "accepted" then
    let p3 := { p2 with priority_name := some pn }
    let p4 := { p3 with slurm_command := generateSlurmCommand p3 utcNow }
    if adminMessage == "" then
      { p4 with admin_message := some (appendEntry p4.admin_message actor zurichNow
          ("Priority accepted and configured with name " ++ singleQuote ++ pn ++ singleQuote)) }
    else p4
  else if newStatus = "refused" then
    { p2 with priority_name := none, slurm_command := none }
  else p2

/-- `update_priority_status` (app.py:390-469) on an existing row: strip the
form fields, run the guards (known status; a non-empty priority name when
accepting; a supplied priority name must validate), then mutate; a failed
guard redirects without mutating (`none`). -/
def updateStatus (p : Priority) (newStatus adminMessageRaw pnRaw actor : String)
    (utcNow zurichNow : Nat) : Option Priority :=
  let adminMessage := pyStrip adminMessageRaw
  let pn := pyStrip pnRaw
  if !(["pending", "accepted", "refused"].contains newStatus) then none
  else if newStatus = "accepted" && pn == "" then none
  else if pn != "" && !validatePriorityName pn then none
  else some (updateStatusCore p newStatus adminMessage pn actor utcNow zurichNow)

/-- `update_priority_users` (app.py:471-506) on an existing row: strip the new
additional-usernames block, reject an invalid non-empty block without mutating,
otherwise store it (empty clears to null) and regenerate the SLURM commands
exactly when the status is accepted and the priority name is truthy. -/
def updateUsers (p : Priority) (additionalRaw : String) (utcNow : Nat) : Option Priority :=
  let au := pyStrip additionalRaw
  if au != "" && !validateUsername au then none
  else
    let p1 := { p with additional_usernames := if au == "" then none else some au }
    if p1.status = "accepted" && pyTruthy p1.priority_name then
      some { p1 with slurm_command := generateSlurmCommand p1 utcNow }
    else some p1

/-- `add_message` (app.py:508-541) on an existing row: a blank message is
rejected without mutating; otherwise one entry is appended to the log and
nothing else changes. -/
def addMessage (p : Priority) (messageRaw actor : String) (zurichNow : Nat) : Option Priority :=
  let m := pyStrip messageRaw
  if m == "" then none
  else some { p with admin_message := some (appendEntry p.admin_message actor zurichNow m) }

/-- One administrator action on a stored request (the three mutating handlers
of app.py). -/
inductive AdminOp where
  | setStatus (newStatus adminMessage priorityName actor : String) (utcNow zurichNow : Nat)
  | setUsers (additional : String) (utcNow : Nat)
  | addMsg (message actor : String) (zurichNow : Nat)
deriving Repr, DecidableEq

/-- Run one administrator action; a rejected action leaves the row unchanged
(the handler redirects before any mutation). -/
def applyOp (p : Priority) (op : AdminOp) : Priority :=
  match op with
  | .setStatus ns am pn actor t zt => (updateStatus p ns am pn actor t zt).getD p
  | .setUsers au t => (updateUsers p au t).getD p
  | .addMsg m actor zt => (addMessage p m actor zt).getD p

/-- The archive test shared by `my_priorities` (app.py:331-343) and
`admin_panel` (app.py:369-381): accepted, has a status timestamp, and
`now > status_updated_at + duration_days + 7 days`. -/
def shouldArchive (p : Priority) (now : Nat) : Bool :=
  p.status == "accepted" &&
    (match p.status_updated_at with
     | some t => decide (t + p.duration_days * daySecs + 7 * daySecs < now)
     | none => false)

/-- Descending creation-time order used by both listings. -/
def createdDesc (a b : Priority) : Prop := b.created_at ≤ a.created_at

instance : DecidableRel createdDesc := fun a b => Nat.decLe b.created_at a.created_at

instance : IsTotal Priority createdDesc :=
  ⟨fun a b => Nat.le_total b.created_at a.created_at⟩

instance : IsTrans Priority createdDesc :=
  ⟨fun _ _ _ h1 h2 => Nat.le_trans h2 h1⟩

/-- Filter + sort shared by both listing views: drop archived rows unless
`showArchived`, then order by creation time descending (app.py:326-348). -/
def listRequests (ps : List Priority) (showArchived : Bool) (now : Nat) : List Priority :=
  (if showArchived then ps
   else ps.filter (fun p => !shouldArchive p now)).insertionSort createdDesc

/-- `my_priorities` (app.py:315-351): the requester's own rows, filtered and
sorted. -/
def myPriorities (ps : List Priority) (uid : Nat) (showArchived : Bool) (now : Nat) :
    List Priority :=
  listRequests (ps.filter (fun p => p.user_id == uid)) showArchived now

/-- `admin_panel` (app.py:353-388): every row, filtered and sorted. -/
def adminPanel (ps : List Priority) (showArchived : Bool) (now : Nat) : List Priority :=
  listRequests ps showArchived now

/-- A dynamically-typed Python value, needed because `get_or_create_user`
assigns a value whose runtime type depends on the branch taken. -/
inductive PyVal where
  | str (s : String)
  | list (l : List String)
deriving Repr, DecidableEq

/-- The fallback username computed by `get_or_create_user` (utils.py:24-27)
when the identity token carries no usable `preferred_username`:
`username = email.split('@') if '@' in email else 'user'` — note that the
split result itself (a list) is assigned. -/
def derivedUsername (preferredUsername : Option String) (email : String) : PyVal :=
  match preferredUsername with
  | some u =>
      if u == "" then
        if email.data.contains '@' then .list (pySplit '@' email) else .str "user"
      else .str u
  | none =>
      if email.data.contains '@' then .list (pySplit '@' email) else .str "user"

/-- The local part of an email address: the substring before the first `@`. -/
def emailLocalPart (email : String) : String :=
  String.mk (email.data.takeWhile (fun c => c ≠ '@'))

/-! ## Claim C5 — ticket validation -/

/-- C5 (counterexample): the claim "`validate_ticket(t)` is true iff `t` is
non-empty, all-digit, length 1-50" fails at `t = " 1"`: the validator strips
first, so it accepts a string that is not all-digit. -/
theorem C5_counterexample :
    ¬ (validateBugzillaTicket " 1" = true ↔
        (" 1" : String) ≠ "" ∧ (" 1" : String).data.all Char.isDigit = true ∧
          1 ≤ (" 1" : String).length ∧ (" 1" : String).length ≤ 50) := by
  decide

/-- C5 (amended): for every string `t`, `validate_bugzilla_ticket t` is true
iff the *stripped* `t` is non-empty, all-digit, and of length between 1
and 50. -/
theorem C5_trimmed_iff (t : String) :
    validateBugzillaTicket t = true ↔
      pyStrip t ≠ "" ∧ (pyStrip t).data.all Char.isDigit = true ∧
        1 ≤ (pyStrip t).length ∧ (pyStrip t).length ≤ 50 := by
  unfold validateBugzillaTicket
  by_cases h : pyStrip t = ""
  · simp [h]
  · have hb : (pyStrip t == "") = false := by simpa using h
    simp only [hb, Bool.false_eq_true, if_false, Bool.and_eq_true, decide_eq_true_eq]
    constructor
    · rintro ⟨⟨hdig, h50⟩, h1⟩
      exact ⟨h, hdig, h1, h50⟩
    · rintro ⟨_, hdig, h1, h50⟩
      exact ⟨⟨hdig, h50⟩, h1⟩

/-! ## Claim C9 — username derivation from email -/

/-- C9 (code bug): with no `preferred_username` and email
`"alice@example.com"`, the code assigns `email.split('@')` — the whole
two-element list, not the local part `"alice"` the spec prescribes; with no
`@` it does assign the literal string `"user"`. -/
theorem C9_split_bug :
    derivedUsername none "alice@example.com" = PyVal.list ["alice", "example.com"] ∧
      emailLocalPart "alice@example.com" = "alice" ∧
      derivedUsername none "alice@example.com" ≠ PyVal.str (emailLocalPart "alice@example.com") ∧
      derivedUsername none "alice" = PyVal.str "user" := by
  decide

/-! ## Claim C2 — generator idempotence -/

/-- A request used to exercise the generator: accepted, priority name `team`,
transition timestamp present. -/
def reqC2 : Priority :=
  { user_id := 1
    user := { username := "alice", email := "alice@example.com" }
    bugzilla_ticket := "12345"
    additional_usernames := none
    slurm_project := "proj"
    gpu_type := "h100"
    gpu_count := 2
    duration_days := 7
    reason := "deadline"
    status := "accepted"
    admin_message := none
    priority_name := some "team"
    status_updated_at := some 0
    status_updated_by := some "boss"
    slurm_command := none
    created_at := 0 }

/-- C2 (counterexample): on an unchanged accepted request with fixed
priority name and fixed status-transition timestamp, two invocations of the
generator are *not* byte-identical — the `# Generated on:` header records the
wall clock of each invocation. -/
theorem C2_counterexample :
    reqC2.status = "accepted" ∧ reqC2.priority_name = some "team" ∧
      reqC2.status_updated_at = some 0 ∧
      generateSlurmCommand reqC2 0 ≠ generateSlurmCommand reqC2 60 := by
  decide

/-- C2 (amended): two invocations of the generator on an unchanged request
agree on everything except the `# Generated on:` header (line index 1):
erasing that line yields identical line sequences for any two invocation
times; hence the output is byte-identical exactly when the two invocations
record the same generation time. -/
theorem C2_same_up_to_header (p : Priority) (t1 t2 : Nat) :
    (slurmCommandLines p t1).map (fun ls => ls.eraseIdx 1) =
      (slurmCommandLines p t2).map (fun ls => ls.eraseIdx 1) := by
  unfold slurmCommandLines
  cases p.priority_name with
  | none => rfl
  | some base =>
      by_cases h : (base == "") = true
      · simp [h]
      · simp only [Bool.not_eq_true] at h
        simp [h, List.eraseIdx]

/-! ## Claim C6 — generator failure conditions -/

/-- A request with a priority name but no status-transition timestamp. -/
def reqC6 : Priority :=
  { user_id := 1
    user := { username := "bob", email := "bob@example.com" }
    bugzilla_ticket := "777"
    additional_usernames := none
    slurm_project := "proj"
    gpu_type := "v100"
    gpu_count := 1
    duration_days := 3
    reason := "test"
    status := "accepted"
    admin_message := none
    priority_name := some "team"
    status_updated_at := none
    status_updated_by := none
    slurm_command := none
    created_at := 0 }

/-- C6 (counterexample): the claim says the generator fails when the
status-transition timestamp is missing; in fact, with a priority name present
and no timestamp, it still returns a command sequence (merely without the
cleanup section). -/
theorem C6_counterexample :
    reqC6.priority_name = some "team" ∧ reqC6.status_updated_at = none ∧
      generateSlurmCommand reqC6 0 ≠ none := by
  decide

/-- C6 (amended): the generator fails exactly when the priority name is
missing (null or empty); for every request with a non-null, non-empty priority
name — whether or not a status-transition timestamp exists — it returns the
command text. -/
theorem C6_fails_iff_no_name (p : Priority) (now : Nat) :
    (generateSlurmCommand p now = none ↔
      p.priority_name = none ∨ p.priority_name = some "") ∧
      (∀ n, p.priority_name = some n → n ≠ "" →
        ∃ text, generateSlurmCommand p now = some text) := by
  constructor
  · unfold generateSlurmCommand slurmCommandLines
    cases hpn : p.priority_name with
    | none => simp
    | some base =>
        by_cases h : base = ""
        · simp [h]
        · have hb : (base == "") = false := by simpa using h
          simp [hb, h]
  · intro n hn hne
    unfold generateSlurmCommand slurmCommandLines
    rw [hn]
    have hb : (n == "") = false := by simpa using hne
    simp [hb]

/-- C6 (witness): the amended theorem applied to `reqC6`, whose priority name
is present: the generator succeeds there. -/
theorem C6_witness :
    reqC6.priority_name = some "team" ∧
      ∃ text, generateSlurmCommand reqC6 5 = some text :=
  ⟨rfl, (C6_fails_iff_no_name reqC6 5).2 "team" rfl (by decide)⟩

/-! ## Claim C4 — QOS naming and timed cleanup -/

/-- C4: for every request with a non-empty priority name and a
status-transition timestamp, the generated lines contain the QOS-creation
command using the QOS name `prio-{priority_name}-{duration_days}d`, and the
time-scheduled QOS-deletion command at
`status_transition_time + duration_days` days, rendered at minute
resolution. -/
theorem C4_qos_name_and_cleanup (p : Priority) (n : String) (t now : Nat)
    (hn : p.priority_name = some n) (hne : n ≠ "") (ht : p.status_updated_at = some t) :
    ∃ ls, slurmCommandLines p now = some ls ∧
      ("sacctmgr add qos " ++ ("prio-" ++ n ++ "-" ++ toString p.duration_days ++ "d") ++
        " GrpTRES=gres/gpu:" ++ p.gpu_type ++ "=" ++ toString p.gpu_count ++
        " MaxWall=" ++ toString p.duration_days ++ "-0 Priority=1000") ∈ ls ∧
      ("echo " ++ singleQuote ++ "sacctmgr -i delete qos " ++
        ("prio-" ++ n ++ "-" ++ toString p.duration_days ++ "d") ++ singleQuote ++
        " | at -t " ++ fmtMinutes (t + p.duration_days * daySecs)) ∈ ls := by
  have hb : (n == "") = false := by simpa using hne
  unfold slurmCommandLines
  rw [hn, ht]
  simp only [hb, Bool.false_eq_true, if_false, Option.some.injEq]
  refine ⟨_, rfl, ?_, ?_⟩
  · simp [List.mem_cons, List.mem_append]
  · simp [List.mem_cons, List.mem_append]

/-- The request of the spec's worked example: priority name `teamA-burst`,
duration 10 days. -/
def reqC4 : Priority :=
  { user_id := 3
    user := { username := "carol", email := "carol@example.com" }
    bugzilla_ticket := "424242"
    additional_usernames := none
    slurm_project := "proj"
    gpu_type := "rtx3090"
    gpu_count := 4
    duration_days := 10
    reason := "paper"
    status := "accepted"
    admin_message := none
    priority_name := some "teamA-burst"
    status_updated_at := some 120
    status_updated_by := some "boss"
    slurm_command := none
    created_at := 0 }

/-- C4 (witness): on the worked example the QOS name evaluates to
`prio-teamA-burst-10d` and the cleanup instant to the transition time plus
10 days. -/
theorem C4_witness :
    reqC4.priority_name = some "teamA-burst" ∧ reqC4.duration_days = 10 ∧
      ("prio-" ++ "teamA-burst" ++ "-" ++ toString reqC4.duration_days ++ "d"
        = "prio-teamA-burst-10d") ∧
      fmtMinutes (120 + reqC4.duration_days * daySecs) = fmtMinutes (120 + 10 * 86400) ∧
      (∃ ls, slurmCommandLines reqC4 0 = some ls ∧
        ("sacctmgr add qos " ++
          ("prio-" ++ "teamA-burst" ++ "-" ++ toString reqC4.duration_days ++ "d") ++
          " GrpTRES=gres/gpu:" ++ reqC4.gpu_type ++ "=" ++ toString reqC4.gpu_count ++
          " MaxWall=" ++ toString reqC4.duration_days ++ "-0 Priority=1000") ∈ ls ∧
        ("echo " ++ singleQuote ++ "sacctmgr -i delete qos " ++
          ("prio-" ++ "teamA-burst" ++ "-" ++ toString reqC4.duration_days ++ "d") ++
          singleQuote ++ " | at -t " ++
          fmtMinutes (120 + reqC4.duration_days * daySecs)) ∈ ls) :=
  ⟨rfl, rfl, by decide, by decide,
    C4_qos_name_and_cleanup reqC4 "teamA-burst" 120 0 rfl (by decide) rfl⟩

/-! ## Claim C8 — submission validation enumerates all violations -/

/-- C8: whenever the submitted duration is outside `[1,14]` and the GPU count
is below 1, validation reports *both* messages, and no request is created. -/
theorem C8_reports_all (d : FormData) (u : UserRec) (uid c : Nat)
    (hd : d.duration_days < 1 ∨ 14 < d.duration_days) (hg : d.gpu_count < 1) :
    "Duration must be between 1 and 14 days (maximum 2 weeks)" ∈ submitErrors d ∧
      "GPU count must be at least 1" ∈ submitErrors d ∧
      ∀ p, confirmPriority d u uid c ≠ Except.ok p := by
  have hgB : (d.gpu_count == 0 || decide (d.gpu_count < 1)) = true := by
    simp [hg]
  have hdB : (d.duration_days == 0 || decide (d.duration_days < 1) ||
      decide (d.duration_days > 14)) = true := by
    rcases hd with h | h <;> simp [h]
  have hmemD : "Duration must be between 1 and 14 days (maximum 2 weeks)" ∈ submitErrors d := by
    unfold submitErrors
    simp [hdB, List.mem_append]
  have hmemG : "GPU count must be at least 1" ∈ submitErrors d := by
    unfold submitErrors
    simp [hgB, List.mem_append]
  refine ⟨hmemD, hmemG, ?_⟩
  intro p
  have hne : submitErrors d ≠ [] := by
    intro h
    rw [h] at hmemD
    exact absurd hmemD (List.not_mem_nil _)
  simp [confirmPriority, hne]

/-- A submission violating both the duration rule and the GPU-count rule. -/
def formC8 : FormData :=
  { bugzilla_ticket := "12345"
    username := "alice"
    additional_usernames := ""
    slurm_project := "proj"
    gpu_type := "h100"
    gpu_count := 0
    duration_days := 20
    reason := "need gpus" }

/-- C8 (witness): the theorem applied to a concrete submission with
duration 20 and GPU count 0. -/
theorem C8_witness :
    (14 : Int) < formC8.duration_days ∧ formC8.gpu_count < 1 ∧
      ("Duration must be between 1 and 14 days (maximum 2 weeks)" ∈ submitErrors formC8 ∧
        "GPU count must be at least 1" ∈ submitErrors formC8 ∧
        ∀ p, confirmPriority formC8 { username := "alice", email := "a@b.c" } 1 0 ≠
          Except.ok p) :=
  ⟨by decide, by decide,
    C8_reports_all formC8 { username := "alice", email := "a@b.c" } 1 0
      (Or.inr (by decide)) (by decide)⟩

/-! ## Claim C10 — transition to pending is a pure stamp-and-log update -/

/-- C10: `update_priority_status` accepts `pending` as a target status; the
result stamps `status_updated_at` and `status_updated_by`, appends the
supplied message to the log when one is given, and leaves every other field —
in particular `priority_name` and `slurm_command` — unchanged. -/
theorem C10_pending_frame (p : Priority) (msgRaw actor : String) (t zt : Nat) :
    updateStatus p "pending" msgRaw "" actor t zt =
      some { p with
              status := "pending"
              status_updated_at := some t
              status_updated_by := some actor
              admin_message :=
                if pyStrip msgRaw == "" then p.admin_message
                else some (appendEntry p.admin_message actor zt (pyStrip msgRaw)) } := by
  have h1 : (["pending", "accepted", "refused"].contains "pending") = true := by decide
  have h2 : pyStrip "" = "" := by decide
  unfold updateStatus updateStatusCore
  rw [h2]
  by_cases hm : (pyStrip msgRaw == "") = true
  · have hmeq : pyStrip msgRaw = "" := by simpa using hm
    have hm' : (pyStrip msgRaw != "") = false := by simp [hmeq]
    simp [h1, hm, hm', hmeq]
  · have hmeq : ¬ pyStrip msgRaw = "" := by simpa using hm
    have hm' : (pyStrip msgRaw != "") = true := by simpa using hmeq
    simp [h1, hm, hm', hmeq]

/-! ## Claim C7 — users update and command regeneration -/

/-- The row with the new additional-usernames block stored
(app.py:490: empty clears the column to null). -/
def usersUpdated (p : Priority) (s : String) : Priority :=
  { p with additional_usernames := if pyStrip s == "" then none else some (pyStrip s) }

/-- Structure of the generated lines: when the priority name is a non-empty
`n`, generation succeeds and the lines from index 10 on start with exactly one
assignment command per effective user — the primary requester followed by the
parsed additional usernames, in order. -/
theorem slurmLines_assignBlock (q : Priority) (n : String) (now : Nat)
    (hn : q.priority_name = some n) (hne : n ≠ "") :
    ∃ ls rest, slurmCommandLines q now = some ls ∧
      ls.drop 10 =
        (q.user.username :: additionalUsernamesList q).map
          (assignCmd ("prio-" ++ n ++ "-" ++ toString q.duration_days ++ "d")
            q.slurm_project) ++ rest := by
  have hb : (n == "") = false := by simpa using hne
  unfold slurmCommandLines
  rw [hn]
  simp only [hb, Bool.false_eq_true, if_false]
  exact ⟨_, _, rfl, rfl⟩

/-- `update_priority_users` on an accepted request with a truthy priority name
and an acceptable new block: the block is stored and the commands are
regenerated from the updated row. -/
theorem updateUsers_accepted_eq (p : Priority) (s : String) (now : Nat) (n : String)
    (hst : p.status = "accepted") (hn : p.priority_name = some n) (hne : n ≠ "")
    (hok : pyStrip s = "" ∨ validateUsername (pyStrip s) = true) :
    updateUsers p s now =
      some { usersUpdated p s with
              slurm_command := generateSlurmCommand (usersUpdated p s) now } := by
  have hau : (pyStrip s != "" && !validateUsername (pyStrip s)) = false := by
    rcases hok with h | h
    · simp [h]
    · simp [h]
  have hcond : (decide (p.status = "accepted") && pyTruthy p.priority_name) = true := by
    rw [hst, hn]
    simp [pyTruthy, hne]
  simp only [updateUsers, usersUpdated]
  simp only [hau, Bool.false_eq_true, if_false]
  simp only [hcond, if_true]

/-- The new stored block parses to the stripped entries of the submitted
block. -/
theorem usersUpdated_parse (p : Priority) (s : String) :
    additionalUsernamesList (usersUpdated p s) =
      ((pySplit '\n' (pyStrip s)).map pyStrip).filter (fun u => u != "") := by
  by_cases h0 : pyStrip s = ""
  · have h0b : (pyStrip s == "") = true := by simpa using h0
    simp only [additionalUsernamesList, usersUpdated, h0b, if_true]
    rw [h0]
    decide
  · have h0b : (pyStrip s == "") = false := by simpa using h0
    simp [additionalUsernamesList, usersUpdated, h0b]

/-- C7: `update_priority_users` on a non-accepted request never changes
`slurm_command` (in particular a null command stays null); on an accepted
request with a non-empty priority name and a valid (or empty) new block it
stores the new block and regenerates `slurm_command`, whose per-user
assignment lines are exactly the primary requester followed by the new
additional usernames, in order, without de-duplication. -/
theorem C7_users_regen (p : Priority) (s : String) (now : Nat) :
    (p.status ≠ "accepted" →
      ((updateUsers p s now).getD p).slurm_command = p.slurm_command) ∧
    (∀ n, p.status = "accepted" → p.priority_name = some n → n ≠ "" →
      (pyStrip s = "" ∨ validateUsername (pyStrip s) = true) →
      ∃ p', updateUsers p s now = some p' ∧
        p'.additional_usernames = (if pyStrip s == "" then none else some (pyStrip s)) ∧
        additionalUsernamesList p' =
          ((pySplit '\n' (pyStrip s)).map pyStrip).filter (fun u => u != "") ∧
        p'.slurm_command = generateSlurmCommand p' now ∧
        ∃ ls rest, slurmCommandLines p' now = some ls ∧
          p'.slurm_command = some (String.intercalate "\n" ls) ∧
          ls.drop 10 =
            (p.user.username :: additionalUsernamesList p').map
              (assignCmd ("prio-" ++ n ++ "-" ++ toString p.duration_days ++ "d")
                p.slurm_project) ++ rest) := by
  constructor
  · intro hst
    have hstb : (decide (p.status = "accepted")) = false := by simpa using hst
    simp only [updateUsers]
    by_cases hg : (pyStrip s != "" && !validateUsername (pyStrip s)) = true
    · simp [hg]
    · have hg2 : (pyStrip s != "" && !validateUsername (pyStrip s)) = false := by
        simpa using hg
      simp [hg2, hstb]
  · intro n hst hn hne hok
    refine ⟨_, updateUsers_accepted_eq p s now n hst hn hne hok, rfl, ?_, rfl, ?_⟩
    · exact usersUpdated_parse p s
    · have hn2 : ({ usersUpdated p s with
          slurm_command := generateSlurmCommand (usersUpdated p s) now } :
            Priority).priority_name = some n := hn
      obtain ⟨ls, rest, hls, hdrop⟩ :=
        slurmLines_assignBlock _ n now hn2 hne
      refine ⟨ls, rest, hls, ?_, hdrop⟩
      show generateSlurmCommand (usersUpdated p s) now = some (String.intercalate "\n" ls)
      unfold generateSlurmCommand
      have : slurmCommandLines (usersUpdated p s) now = some ls := hls
      rw [this]
      rfl

/-- An accepted request used to exercise the users update. -/
def reqC7 : Priority :=
  { user_id := 2
    user := { username := "alice", email := "alice@example.com" }
    bugzilla_ticket := "999"
    additional_usernames := some "dave"
    slurm_project := "proj"
    gpu_type := "h100"
    gpu_count := 1
    duration_days := 5
    reason := "training"
    status := "accepted"
    admin_message := none
    priority_name := some "team"
    status_updated_at := some 0
    status_updated_by := some "boss"
    slurm_command := none
    created_at := 0 }

/-- C7 (witness): the accepted branch of the theorem applied to `reqC7` with
the new block `"dave\neve"`. -/
theorem C7_witness :
    reqC7.status = "accepted" ∧ validateUsername (pyStrip "dave\neve") = true ∧
      (∃ p', updateUsers reqC7 "dave\neve" 3 = some p' ∧
        p'.additional_usernames =
          (if pyStrip "dave\neve" == "" then none else some (pyStrip "dave\neve")) ∧
        additionalUsernamesList p' =
          ((pySplit '\n' (pyStrip "dave\neve")).map pyStrip).filter (fun u => u != "") ∧
        p'.slurm_command = generateSlurmCommand p' 3 ∧
        ∃ ls rest, slurmCommandLines p' 3 = some ls ∧
          p'.slurm_command = some (String.intercalate "\n" ls) ∧
          ls.drop 10 =
            (reqC7.user.username :: additionalUsernamesList p').map
              (assignCmd ("prio-" ++ "team" ++ "-" ++ toString reqC7.duration_days ++ "d")
                reqC7.slurm_project) ++ rest) :=
  ⟨rfl, by decide,
    (C7_users_regen reqC7 "dave\neve" 3).2 "team" rfl rfl (by decide)
      (Or.inr (by decide))⟩

/-! ## Claim C3 — archival and listing policy -/

/-- C3: a request is archived iff it is accepted and
`status_transition_time + duration_days + 7 days < now`; the default listings
exclude exactly the archived requests, the include-archived flag lists
everything (with the owner filter for the self-service view), every listing
is sorted by creation time descending, and a request accepted at `T` with
duration 7 days is archived exactly when `T + 14 days < now`. -/
theorem C3_archival_listing (ps : List Priority) (uid : Nat) (now : Nat) (sa : Bool) :
    (∀ q, shouldArchive q now = true ↔
      (q.status = "accepted" ∧ ∃ T, q.status_updated_at = some T ∧
        T + q.duration_days * daySecs + 7 * daySecs < now)) ∧
    (∀ q, q ∈ adminPanel ps false now ↔ q ∈ ps ∧ shouldArchive q now = false) ∧
    (∀ q, q ∈ adminPanel ps true now ↔ q ∈ ps) ∧
    (∀ q, q ∈ myPriorities ps uid false now ↔
      q ∈ ps ∧ q.user_id = uid ∧ shouldArchive q now = false) ∧
    (∀ q, q ∈ myPriorities ps uid true now ↔ q ∈ ps ∧ q.user_id = uid) ∧
    List.Sorted createdDesc (adminPanel ps sa now) ∧
    List.Sorted createdDesc (myPriorities ps uid sa now) ∧
    (∀ q T, q.status = "accepted" → q.status_updated_at = some T → q.duration_days = 7 →
      (shouldArchive q now = true ↔ T + 14 * daySecs < now)) := by
  refine ⟨?_, ?_, ?_, ?_, ?_, ?_, ?_, ?_⟩
  · intro q
    unfold shouldArchive
    cases h : q.status_updated_at with
    | none => simp [h]
    | some T => simp [h, Bool.and_eq_true, decide_eq_true_eq]
  · intro q
    simp [adminPanel, listRequests, List.mem_insertionSort, List.mem_filter,
      Bool.not_eq_true']
  · intro q
    simp [adminPanel, listRequests, List.mem_insertionSort]
  · intro q
    simp [myPriorities, listRequests, List.mem_insertionSort, List.mem_filter,
      Bool.not_eq_true']
    tauto
  · intro q
    simp [myPriorities, listRequests, List.mem_insertionSort, List.mem_filter]
  · simp only [adminPanel, listRequests]
    exact List.sorted_insertionSort _ _
  · simp only [myPriorities, listRequests]
    exact List.sorted_insertionSort _ _
  · intro q T hs ht hd
    simp only [shouldArchive, ht, hd, hs, beq_self_eq_true, Bool.true_and,
      decide_eq_true_eq]
    constructor
    · intro h
      unfold daySecs at h ⊢
      omega
    · intro h
      unfold daySecs at h ⊢
      omega

/-- C3 (witness): the final conjunct of the listing theorem applied to a
concrete accepted request with duration 7 at a time just past `T + 14` days,
plus the include-archived conjunct showing it is still listed then. -/
def reqC3 : Priority :=
  { user_id := 4
    user := { username := "dana", email := "dana@example.com" }
    bugzilla_ticket := "31337"
    additional_usernames := none
    slurm_project := "proj"
    gpu_type := "v100"
    gpu_count := 2
    duration_days := 7
    reason := "demo"
    status := "accepted"
    admin_message := none
    priority_name := some "team"
    status_updated_at := some 1000
    status_updated_by := some "boss"
    slurm_command := none
    created_at := 5 }

/-- C3 (witness): see `C3_archival_listing`. -/
theorem C3_witness :
    (shouldArchive reqC3 (1000 + 14 * daySecs + 1) = true ↔
      1000 + 14 * daySecs < 1000 + 14 * daySecs + 1) ∧
      (reqC3 ∈ adminPanel [reqC3] true (1000 + 14 * daySecs + 1) ↔ reqC3 ∈ [reqC3]) :=
  ⟨(C3_archival_listing [reqC3] 0 (1000 + 14 * daySecs + 1) true).2.2.2.2.2.2.2
      reqC3 1000 rfl rfl rfl,
    (C3_archival_listing [reqC3] 0 (1000 + 14 * daySecs + 1) true).2.2.1 reqC3⟩

/-! ## Claim C1 — the name/command status invariant -/

/-- The amended C1 invariant: an accepted request carries a non-empty priority
name and a non-null generated command; a refused request carries neither.
(The original claim's converse — non-null only when accepted — fails: a
transition back to `pending` leaves both fields untouched.) -/
def PriorityInv (p : Priority) : Prop :=
  (p.status = "accepted" →
    ∃ n, p.priority_name = some n ∧ n ≠ "" ∧ p.slurm_command ≠ none) ∧
  (p.status = "refused" → p.priority_name = none ∧ p.slurm_command = none)

/-- The generator succeeds on any row whose priority name is a non-empty
string. -/
theorem generate_ne_none (p : Priority) (now : Nat) (n : String)
    (hn : p.priority_name = some n) (hne : n ≠ "") :
    generateSlurmCommand p now ≠ none := by
  have hb : (n == "") = false := by simpa using hne
  unfold generateSlurmCommand slurmCommandLines
  rw [hn]
  simp [hb]

/-- The status-update mutation preserves the invariant, provided the
accepting guard (non-empty name when accepting) held. -/
theorem inv_updateStatusCore (p : Priority) (ns am pn actor : String) (t zt : Nat)
    (hpn : ns = "accepted" → pn ≠ "") :
    PriorityInv (updateStatusCore p ns am pn actor t zt) := by
  simp only [updateStatusCore]
  by_cases hacc : ns = "accepted"
  · have hpne : pn ≠ "" := hpn hacc
    rw [if_pos hacc]
    by_cases ham : (am != "") = true
    · have ham2 : ¬ ((am == "") = true) := by
        simp only [bne] at ham
        simpa using ham
      rw [if_pos ham, if_neg ham2]
      refine ⟨fun _ => ⟨pn, rfl, hpne, ?_⟩, fun hr => ?_⟩
      · exact generate_ne_none _ t pn rfl hpne
      · exact absurd (hacc.symm.trans hr) (by decide)
    · have hameq : am = "" := by simpa using ham
      have ham2 : ((am == "") = true) := by simp [hameq]
      rw [if_neg ham, if_pos ham2]
      refine ⟨fun _ => ⟨pn, rfl, hpne, ?_⟩, fun hr => ?_⟩
      · exact generate_ne_none _ t pn rfl hpne
      · exact absurd (hacc.symm.trans hr) (by decide)
  · by_cases href : ns = "refused"
    · rw [if_neg hacc, if_pos href]
      by_cases ham : (am != "") = true
      · rw [if_pos ham]
        exact ⟨fun h2 => absurd h2 hacc, fun _ => ⟨rfl, rfl⟩⟩
      · rw [if_neg ham]
        exact ⟨fun h2 => absurd h2 hacc, fun _ => ⟨rfl, rfl⟩⟩
    · rw [if_neg hacc, if_neg href]
      by_cases ham : (am != "") = true
      · rw [if_pos ham]
        exact ⟨fun h2 => absurd h2 hacc, fun h2 => absurd h2 href⟩
      · rw [if_neg ham]
        exact ⟨fun h2 => absurd h2 hacc, fun h2 => absurd h2 href⟩

/-- Every administrator action preserves the invariant. -/
theorem inv_applyOp (p : Priority) (op : AdminOp) (h : PriorityInv p) :
    PriorityInv (applyOp p op) := by
  cases op with
  | addMsg m actor zt =>
      simp only [applyOp, addMessage]
      by_cases hm : (pyStrip m == "") = true
      · rw [if_pos hm]
        exact h
      · rw [if_neg hm]
        exact ⟨h.1, h.2⟩
  | setUsers au t =>
      simp only [applyOp, updateUsers]
      by_cases hg : ((pyStrip au != "" && !validateUsername (pyStrip au)) = true)
      · rw [if_pos hg]
        exact h
      · rw [if_neg hg]
        by_cases hacc : p.status = "accepted"
        · obtain ⟨n, hn, hne, _⟩ := h.1 hacc
          have hcond : ((decide (p.status = "accepted") && pyTruthy p.priority_name) = true) := by
            rw [hacc, hn]
            simp [pyTruthy, hne]
          rw [if_pos hcond]
          refine ⟨fun _ => ⟨n, hn, hne, ?_⟩, fun hr => ?_⟩
          · exact generate_ne_none _ t n hn hne
          · exact absurd (hacc.symm.trans hr) (by decide)
        · have hcond : ¬ ((decide (p.status = "accepted") && pyTruthy p.priority_name) = true) := by
            simp [hacc]
          rw [if_neg hcond]
          exact ⟨h.1, h.2⟩
  | setStatus ns am pn actor t zt =>
      simp only [applyOp, updateStatus]
      by_cases h1 : ((!(["pending", "accepted", "refused"].contains ns)) = true)
      · rw [if_pos h1]
        exact h
      · rw [if_neg h1]
        by_cases h2 : ((decide (ns = "accepted") && (pyStrip pn == "")) = true)
        · rw [if_pos h2]
          exact h
        · rw [if_neg h2]
          by_cases h3 : ((pyStrip pn != "" && !validatePriorityName (pyStrip pn)) = true)
          · rw [if_pos h3]
            exact h
          · rw [if_neg h3]
            apply inv_updateStatusCore
            intro hnsacc hpe
            apply h2
            rw [hnsacc]
            simp only [decide_eq_true_eq, Bool.and_eq_true, beq_iff_eq]
            exact ⟨trivial, hpe⟩

/-- The invariant propagates through any sequence of administrator actions. -/
theorem inv_foldl (p : Priority) (ops : List AdminOp) (h : PriorityInv p) :
    PriorityInv (ops.foldl applyOp p) := by
  induction ops generalizing p with
  | nil => simpa using h
  | cons op rest ih => exact ih _ (inv_applyOp p op h)

/-- A request whose status is `pending` satisfies the invariant outright. -/
theorem inv_of_pending (p : Priority) (h : p.status = "pending") : PriorityInv p :=
  ⟨fun h2 => absurd (h.symm.trans h2) (by decide),
   fun h2 => absurd (h.symm.trans h2) (by decide)⟩

/-- C1 (amended): starting from any successfully submitted request, after any
sequence of core transitions (status updates — including accept and refuse —,
additional-usernames updates, message appends), an accepted request always has
a non-empty `priority_name` and a non-null `slurm_command`, and a refused
request has both null.  (The converse direction of the original iff is false:
a transition back to `pending` leaves both fields unchanged, see the
counterexample.) -/
theorem C1_invariant (d : FormData) (u : UserRec) (uid c : Nat) (p : Priority)
    (hp : confirmPriority d u uid c = Except.ok p) (ops : List AdminOp) :
    PriorityInv (ops.foldl applyOp p) := by
  apply inv_foldl
  unfold confirmPriority at hp
  by_cases he : submitErrors d = []
  · rw [if_pos he] at hp
    cases hp
    exact inv_of_pending _ rfl
  · rw [if_neg he] at hp
    exact Except.noConfusion hp

/-- A valid submission, used for the C1 witness and counterexample. -/
def formC1 : FormData :=
  { bugzilla_ticket := "123"
    username := "alice"
    additional_usernames := ""
    slurm_project := "proj"
    gpu_type := "h100"
    gpu_count := 1
    duration_days := 7
    reason := "experiments" }

/-- The requester on record for `formC1`. -/
def userC1 : UserRec := { username := "alice", email := "alice@example.com" }

/-- The stored pending request `formC1` creates. -/
def reqC1 : Priority :=
  { user_id := 1
    user := userC1
    bugzilla_ticket := "123"
    additional_usernames := none
    slurm_project := "proj"
    gpu_type := "h100"
    gpu_count := 1
    duration_days := 7
    reason := "experiments"
    status := "pending"
    admin_message := none
    priority_name := none
    status_updated_at := none
    status_updated_by := none
    slurm_command := none
    created_at := 0 }

/-- C1 (witness): the invariant theorem applied to the concrete submission
`formC1` followed by an accept transition. -/
theorem C1_witness :
    PriorityInv (List.foldl applyOp reqC1
      [AdminOp.setStatus "accepted" "" "team" "boss" 100 100]) :=
  C1_invariant formC1 userC1 1 0 reqC1 rfl
    [AdminOp.setStatus "accepted" "" "team" "boss" 100 100]

/-- The state reached by submitting `formC1`, accepting with name `team`,
then transitioning back to `pending`. -/
def reqC1AfterPending : Priority :=
  List.foldl applyOp reqC1
    [AdminOp.setStatus "accepted" "" "team" "boss" 100 100,
     AdminOp.setStatus "pending" "" "" "boss" 200 200]

/-- C1 (counterexample): after accept-then-pending, the request's status is
`pending` while `priority_name` and `slurm_command` are still non-null, so
"non-null iff accepted" fails after a core transition. -/
theorem C1_counterexample :
    confirmPriority formC1 userC1 1 0 = Except.ok reqC1 ∧
      reqC1AfterPending.status = "pending" ∧
      reqC1AfterPending.priority_name = some "team" ∧
      reqC1AfterPending.slurm_command ≠ none ∧
      ¬ ((reqC1AfterPending.priority_name ≠ none ∧
          reqC1AfterPending.slurm_command ≠ none) ↔
            reqC1AfterPending.status = "accepted") :=
  ⟨rfl, by decide⟩
